import Mathlib

/-!
# Securon adaptive rule engine — verification development

A shallow embedding of the Securon platform's rule store, enforcement
engine, candidate synthesizer, CLI exit-code convention and the web
frontend's result-transformation code, with theorems checking the
specification's claims against it.

The backend implementation (rule store, enforcement engine, synthesizer,
CLI) is not present in the repository snapshot — only its documentation,
type declarations and the web frontend are.  Definitions for those parts
are therefore modelled from the specification, as marked in their doc
comments.  Frontend definitions are translated from the TypeScript
sources (`MLFindings.tsx`, `LogUpload.tsx`, `IaCScanner.tsx`).
-/

namespace Securon

/-- Rule severity levels, from the shared type declarations
(`src/unnamed/part_003`, `enum Severity`). -/
inductive Severity where
| LOW
| MEDIUM
| HIGH
| CRITICAL
deriving DecidableEq, Repr

/-- Rule lifecycle status (`src/unnamed/part_003`, `enum RuleStatus`). -/
inductive RuleStatus where
| CANDIDATE
| ACTIVE
| REJECTED
deriving DecidableEq, Repr

/-- Rule provenance (`src/unnamed/part_003`, `enum RuleSource`). -/
inductive RuleSource where
| STATIC
| ML_GENERATED
deriving DecidableEq, Repr

/-- Attribute values appearing in parsed IaC resource declarations. -/
inductive AttrValue where
| str (s : String)
| num (n : Nat)
| boolean (b : Bool)
deriving DecidableEq, Repr

/-- Modelled from the spec: the tagged predicate language of §4.3 —
attribute-equals, attribute-member-of-set and attribute-absent,
composable with AND/OR. -/
inductive Pattern where
| attrEquals (key : String) (value : AttrValue)
| attrMemberOf (key : String) (values : List AttrValue)
| attrAbsent (key : String)
| conj (p q : Pattern)
| disj (p q : Pattern)
deriving DecidableEq, Repr

/-- Modelled from the spec: the SecurityRule record of §3 (the backend
implementation is absent from the snapshot; the shape follows the
`SecurityRule` declaration in `src/unnamed/part_003` plus the spec's
version field). -/
structure SecurityRule where
id : Nat
name : String
description : String
severity : Severity
resourceType : String
pattern : Pattern
remediation : String
source : RuleSource
status : RuleStatus
version : Nat
deriving DecidableEq, Repr

/-- Modelled from the spec: a fully-formed candidate rule's content, as
submitted to `put_candidate`. -/
structure CandidateRule where
name : String
description : String
severity : Severity
resourceType : String
pattern : Pattern
remediation : String
deriving DecidableEq, Repr

/-- Modelled from the spec: the content fingerprint, `hash(type,
normalized pattern)`; the hash is modelled as the (injective) pair
itself. -/
def fingerprint (resourceType : String) (pattern : Pattern) : String × Pattern :=
  (resourceType, pattern)

/-- Modelled from the spec: the Rule Store's persisted layout — an
append-only per-rule version log plus a fresh-id counter (§6; the
backend implementation is absent from the snapshot). -/
structure RuleStore where
history : List SecurityRule
nextId : Nat
deriving DecidableEq, Repr

/-- The empty rule store. -/
def emptyStore : RuleStore := { history := [], nextId := 0 }

/-- Of two versions of a rule, keep the later one (used to materialize
the "current" projection of the append-only log). -/
def laterOf (acc : Option SecurityRule) (r : SecurityRule) : Option SecurityRule :=
  match acc with
  | none => some r
  | some b => if b.version < r.version then some r else some b

/-- Latest version of rule `id` recorded in a history log. -/
def currentIn (h : List SecurityRule) (id : Nat) : Option SecurityRule :=
  (h.filter (fun r => r.id == id)).foldl laterOf none

/-- Modelled from the spec: `get(id)`'s "latest version" projection —
the materialized current version of a rule id (§3, §6). -/
def currentOf (store : RuleStore) (id : Nat) : Option SecurityRule :=
  currentIn store.history id

/-- The distinct rule ids present in a store. -/
def ruleIds (store : RuleStore) : List Nat :=
  (store.history.map (fun r => r.id)).dedup

/-- The materialized "current" projection: the latest version of every
rule id. -/
def currentRules (store : RuleStore) : List SecurityRule :=
  (ruleIds store).filterMap (currentOf store)

/-- Modelled from the spec: `active_snapshot()` — the set of all
currently ACTIVE rules (§4.1). -/
def activeSnapshot (store : RuleStore) : List SecurityRule :=
  (currentRules store).filter (fun r => r.status == RuleStatus.ACTIVE)

/-- Modelled from the spec: the semantic error taxonomy of §7 relevant
to store operations. -/
inductive StoreError where
| VersionConflict
| InvalidTransition
| NotFound
deriving DecidableEq, Repr

/-- Modelled from the spec: the common core of `approve`/`reject` (§4.1)
— transition CANDIDATE→`target` only if the stored current version
equals `expectedVersion` (optimistic concurrency; mismatch fails with
VersionConflict, wrong source status fails with InvalidTransition), by
appending a new version to the log; every failure leaves the store
untouched. -/
def transition (target : RuleStatus) (store : RuleStore) (id expectedVersion : Nat) :
    Except StoreError Unit × RuleStore :=
  match currentOf store id with
  | none => (Except.error StoreError.NotFound, store)
  | some r =>
    if r.version ≠ expectedVersion then (Except.error StoreError.VersionConflict, store)
    else if r.status ≠ RuleStatus.CANDIDATE then (Except.error StoreError.InvalidTransition, store)
    else (Except.ok (),
      { store with
          history := store.history ++ [{ r with status := target, version := r.version + 1 }] })

/-- Modelled from the spec: `approve(id, expected_version)` (§4.1). -/
def approve (store : RuleStore) (id expectedVersion : Nat) :
    Except StoreError Unit × RuleStore :=
  transition RuleStatus.ACTIVE store id expectedVersion

/-- Modelled from the spec: `reject(id, expected_version)` (§4.1). -/
def reject (store : RuleStore) (id expectedVersion : Nat) :
    Except StoreError Unit × RuleStore :=
  transition RuleStatus.REJECTED store id expectedVersion

/-- Does stored rule `r` block candidate `c` as a duplicate: `r` is not
REJECTED and the content fingerprints coincide (§4.1). -/
def matchesDup (c : CandidateRule) (r : SecurityRule) : Bool :=
  decide (r.status ≠ RuleStatus.REJECTED) &&
    decide (fingerprint r.resourceType r.pattern = fingerprint c.resourceType c.pattern)

/-- First current rule that makes candidate `c` a duplicate, if any. -/
def findDup (store : RuleStore) (c : CandidateRule) : Option SecurityRule :=
  (currentRules store).find? (matchesDup c)

/-- A fresh ML-generated CANDIDATE rule at version 1 built from
candidate content. -/
def mkRule (id : Nat) (c : CandidateRule) : SecurityRule :=
  { id := id, name := c.name, description := c.description, severity := c.severity,
    resourceType := c.resourceType, pattern := c.pattern, remediation := c.remediation,
    source := RuleSource.ML_GENERATED, status := RuleStatus.CANDIDATE, version := 1 }

/-- Modelled from the spec: `put_candidate(candidate)` (§4.1) — if the
fingerprint matches an existing non-REJECTED rule, return that rule's id
without writing; otherwise persist version 1 under a fresh id. -/
def putCandidate (store : RuleStore) (c : CandidateRule) : Nat × RuleStore :=
  match findDup store c with
  | some r => (r.id, store)
  | none =>
    (store.nextId,
      { history := store.history ++ [mkRule store.nextId c], nextId := store.nextId + 1 })

/-- A parsed IaC resource declaration (§3): type, name, attribute map
(as key/value pairs; repeated keys model nested blocks such as ingress
entries), source file and line; supplied by the external Resource
Extractor. -/
structure ResourceDecl where
rtype : String
name : String
attrs : List (String × AttrValue)
file : String
line : Nat
deriving DecidableEq, Repr

/-- Modelled from the spec: uniform interpretation of the tagged
predicate language over a resource's attribute map (§4.3). -/
def evalPattern (p : Pattern) (attrs : List (String × AttrValue)) : Bool :=
  match p with
  | Pattern.attrEquals k v => attrs.any (fun kv => kv.1 == k && kv.2 == v)
  | Pattern.attrMemberOf k vs => attrs.any (fun kv => kv.1 == k && vs.contains kv.2)
  | Pattern.attrAbsent k => !(attrs.any (fun kv => kv.1 == k))
  | Pattern.conj p q => evalPattern p attrs && evalPattern q attrs
  | Pattern.disj p q => evalPattern p attrs || evalPattern q attrs

/-- A finding (§3): derived per scan, never persisted. -/
structure Finding where
ruleId : Nat
ruleVersion : Nat
severity : Severity
file : String
line : Nat
resource : String
message : String
remediation : String
deriving DecidableEq, Repr

/-- The determinism contract's sort key: file path, then line number,
then rule id (§4.3). -/
def findingKey (f : Finding) : Lex (String × Lex (Nat × Nat)) :=
  toLex (f.file, toLex (f.line, f.ruleId))

/-- The ordering findings are reported in: lexicographic on
(file, line, ruleId). -/
def FindingLE (a b : Finding) : Prop :=
  findingKey a ≤ findingKey b

instance : DecidableRel FindingLE :=
  fun a b => inferInstanceAs (Decidable (findingKey a ≤ findingKey b))

instance : IsTotal Finding FindingLE :=
  ⟨fun a b => le_total (findingKey a) (findingKey b)⟩

instance : IsTrans Finding FindingLE :=
  ⟨fun _ _ _ hab hbc => le_trans hab hbc⟩

/-- The finding emitted when active rule `r` matches resource `res`. -/
def mkFinding (res : ResourceDecl) (r : SecurityRule) : Finding :=
  { ruleId := r.id, ruleVersion := r.version, severity := r.severity,
    file := res.file, line := res.line, resource := res.name,
    message := r.description, remediation := r.remediation }

/-- Per-severity finding counts of a scan report. -/
structure SevCounts where
low : Nat
medium : Nat
high : Nat
critical : Nat
deriving DecidableEq, Repr

/-- Severity counts of a list of findings (computed after the ordering
is fixed, §4.3). -/
def severityCounts (fs : List Finding) : SevCounts :=
  { low := (fs.filter (fun f => f.severity == Severity.LOW)).length,
    medium := (fs.filter (fun f => f.severity == Severity.MEDIUM)).length,
    high := (fs.filter (fun f => f.severity == Severity.HIGH)).length,
    critical := (fs.filter (fun f => f.severity == Severity.CRITICAL)).length }

/-- A scan report: ordered findings plus severity counts (§6). -/
structure ScanReport where
findings : List Finding
counts : SevCounts
deriving DecidableEq, Repr

/-- The unsorted findings of a scan: for each resource, each ACTIVE rule
of the snapshot targeting the resource's type whose predicate matches
emits one finding (§4.3). -/
def rawFindings (resources : List ResourceDecl) (snapshot : List SecurityRule) : List Finding :=
  resources.flatMap (fun res =>
    (snapshot.filter (fun r => r.status == RuleStatus.ACTIVE && r.resourceType == res.rtype)).filterMap
      (fun r => if evalPattern r.pattern res.attrs then some (mkFinding res r) else none))

/-- Modelled from the spec: `scan(resources, rule_snapshot)` (§4.3) —
evaluate every active rule against every resource, order the findings
by file path, line number, rule id, then compute severity counts. -/
def scan (resources : List ResourceDecl) (snapshot : List SecurityRule) : ScanReport :=
  let sorted := List.insertionSort FindingLE (rawFindings resources snapshot)
  { findings := sorted, counts := severityCounts sorted }

/-- Modelled from the spec: the CI-facing process exit-code convention
(§6; `src/backend/CLI_README.md` "Exit Codes") for a completed scan —
2 if any HIGH/CRITICAL finding, else 1 if any finding, else 0. -/
def exitCode (findings : List Finding) : Nat :=
  if findings.any (fun f => f.severity == Severity.HIGH || f.severity == Severity.CRITICAL) then 2
  else if findings.isEmpty then 0
  else 1

/-- An anomaly descriptor (§3): external input to the synthesizer. -/
structure AnomalyDescriptor where
id : Nat
atype : String
severityScore : ℚ
confidence : ℚ
affectedResources : List String
deriving DecidableEq, Repr

/-- Modelled from the spec: severity bucketing from the anomaly score
(§4.2): [0.8,1.0]→CRITICAL, [0.6,0.8)→HIGH, [0.4,0.6)→MEDIUM, else
LOW. -/
def severityBucket (s : ℚ) : Severity :=
  if 0.8 ≤ s then Severity.CRITICAL
  else if 0.6 ≤ s then Severity.HIGH
  else if 0.4 ≤ s then Severity.MEDIUM
  else Severity.LOW

/-- Modelled from the spec: `synthesize(anomaly)` (§4.2) — none when
confidence < 0.5 (the default threshold); otherwise a candidate rule
derived deterministically from the anomaly (the exact pattern
derivation is unspecified and abstracted as a pure function of the
anomaly's type and affected resources). -/
def synthesize (a : AnomalyDescriptor) : Option CandidateRule :=
  if a.confidence < 0.5 then none
  else some
    { name := "ML Rule: " ++ a.atype,
      description := "Flag the resource condition implied by anomaly type " ++ a.atype,
      severity := severityBucket a.severityScore,
      resourceType := a.affectedResources.headD "any",
      pattern := Pattern.attrEquals "anomaly_type" (AttrValue.str a.atype),
      remediation := "Review resources affected by " ++ a.atype }

/-- The synthesis pipeline step: write the synthesized candidate (if
any) to the rule store. -/
def processAnomaly (store : RuleStore) (a : AnomalyDescriptor) : RuleStore :=
  match synthesize a with
  | none => store
  | some c => (putCandidate store c).2

/-- `getSeverityColor` from
`src/frontend/src/components/MLFindings.tsx` (lines 126–131): maps a
numeric anomaly severity to a MUI chip color. -/
def getSeverityColorML (severity : ℚ) : String :=
  if 0.8 ≤ severity then "error"
  else if 0.6 ≤ severity then "warning"
  else if 0.4 ≤ severity then "info"
  else "success"

/-- `getSeverityColor` from
`src/frontend/src/components/LogUpload.tsx` (lines 184–189): maps a
numeric anomaly severity to a hex color. -/
def getSeverityColorLog (severity : ℚ) : String :=
  if 0.8 ≤ severity then "#EF4444"
  else if 0.6 ≤ severity then "#F59E0B"
  else if 0.4 ≤ severity then "#3B82F6"
  else "#10B981"

/-- The MUI chip color corresponding to each severity bucket. -/
def muiColorOf : Severity → String
  | Severity.CRITICAL => "error"
  | Severity.HIGH => "warning"
  | Severity.MEDIUM => "info"
  | Severity.LOW => "success"

/-- The hex color corresponding to each severity bucket. -/
def hexColorOf : Severity → String
  | Severity.CRITICAL => "#EF4444"
  | Severity.HIGH => "#F59E0B"
  | Severity.MEDIUM => "#3B82F6"
  | Severity.LOW => "#10B981"

/-- One entry of the backend's `/api/iac/scan` response `results` array
as consumed by `src/frontend/src/components/IaCScanner.tsx`; fields the
backend may omit are `Option`. -/
structure BackendScanItem where
file_path : Option String
rule_id : Option String
severity : Option String
description : Option String
line_number : Option Nat
deriving DecidableEq, Repr

/-- The backend's `/api/iac/scan` response shape as consumed by
`IaCScanner.tsx` (`backendData`). -/
structure BackendScanResponse where
message : String
files_scanned : Option Nat
issues_found : Option Nat
results : List BackendScanItem
deriving DecidableEq, Repr

/-- One entry of the web scanner's `violations` array
(`IaCScanner.tsx`, interface `ScanResult`). -/
structure Violation where
file : String
rule : String
severity : String
message : String
line : Nat
resource : String
deriving DecidableEq, Repr

/-- The web scanner's `violations_by_severity` buckets
(`IaCScanner.tsx`). -/
structure SeverityBuckets where
CRITICAL : Nat
HIGH : Nat
MEDIUM : Nat
LOW : Nat
deriving DecidableEq, Repr

/-- The web scanner's transformed scan result (`IaCScanner.tsx`,
`transformedData`). -/
structure TransformedScan where
message : String
total_files : Nat
total_violations : Nat
violations_by_severity : SeverityBuckets
violations : List Violation
deriving DecidableEq, Repr

/-- The per-result mapping of `IaCScanner.tsx` `onDrop` (lines
102–109): each backend result becomes a violation entry, defaulting
missing fields — severity to `"MEDIUM"`, line to `0`, file/resource to
`"unknown"`, message to `"No description"`. -/
def toViolation (r : BackendScanItem) : Violation :=
  { file := r.file_path.getD "unknown",
    rule := r.rule_id.getD "unknown",
    severity := r.severity.getD "MEDIUM",
    message := r.description.getD "No description",
    line := r.line_number.getD 0,
    resource := r.file_path.getD "unknown" }

/-- The severity-count step of `IaCScanner.tsx` `onDrop` (lines
112–119): increment the bucket named by the (defaulted) severity when
it is one of the four fixed keys, otherwise leave the buckets
unchanged. -/
def bumpBucket (b : SeverityBuckets) (sev : String) : SeverityBuckets :=
  if sev = "CRITICAL" then { b with CRITICAL := b.CRITICAL + 1 }
  else if sev = "HIGH" then { b with HIGH := b.HIGH + 1 }
  else if sev = "MEDIUM" then { b with MEDIUM := b.MEDIUM + 1 }
  else if sev = "LOW" then { b with LOW := b.LOW + 1 }
  else b

/-- The `forEach` counting loop of `IaCScanner.tsx` `onDrop`. -/
def countBuckets (results : List BackendScanItem) : SeverityBuckets :=
  results.foldl (fun b r => bumpBucket b (r.severity.getD "MEDIUM")) ⟨0, 0, 0, 0⟩

/-- The response transformation of `IaCScanner.tsx` `onDrop` (lines
93–122): build `transformedData` from the backend response. -/
def transformScan (d : BackendScanResponse) : TransformedScan :=
  { message := d.message,
    total_files := d.files_scanned.getD 0,
    total_violations := d.issues_found.getD 0,
    violations_by_severity := countBuckets d.results,
    violations := d.results.map toViolation }

/-- Review status of an ML finding (`MLFindings.tsx`, `MLFinding`
interface). -/
inductive FindingStatus where
| new
| reviewed
| resolved
deriving DecidableEq, Repr

/-- The time window of an ML finding (`MLFindings.tsx`). -/
structure TimeWindow where
start : String
stop : String
deriving DecidableEq, Repr

/-- An ML finding as rendered by `MLFindings.tsx` (interface
`MLFinding`). -/
structure MLFinding where
id : String
timestamp : String
ftype : String
severity : ℚ
confidence : ℚ
description : String
explanation : String
affected_resources : List String
time_window : TimeWindow
status : FindingStatus
deriving DecidableEq, Repr

/-- The body of a successful `GET /api/ml/findings` response as
consumed by `MLFindings.tsx` (`response.data`); the `findings` field
may be absent. -/
structure MLFindingsResponse where
findings : Option (List MLFinding)
deriving DecidableEq, Repr

/-- The three hard-coded mock findings of `MLFindings.tsx`
`fetchFindings` (lines 73–122), installed on any fetch failure. -/
def mockFindings : List MLFinding :=
  [{ id := "1", timestamp := "2024-01-15T14:30:00Z", ftype := "suspicious_ip_activity",
     severity := 0.85, confidence := 0.92,
     description := "Multiple failed login attempts from suspicious IP addresses",
     explanation := "The ML model detected an unusual pattern of failed authentication attempts from IP addresses not previously seen in your environment. This could indicate a brute force attack or credential stuffing attempt.",
     affected_resources := ["vpc-12345", "sg-67890"],
     time_window := { start := "2024-01-15T14:00:00Z", stop := "2024-01-15T14:30:00Z" },
     status := FindingStatus.new },
   { id := "2", timestamp := "2024-01-15T13:45:00Z", ftype := "unusual_api_calls",
     severity := 0.65, confidence := 0.78,
     description := "Unusual API call patterns detected during off-hours",
     explanation := "Administrative API calls were made outside of normal business hours from an unfamiliar location. While this could be legitimate remote work, it deviates from established patterns.",
     affected_resources := ["iam-role-admin", "ec2-instances"],
     time_window := { start := "2024-01-15T02:00:00Z", stop := "2024-01-15T03:00:00Z" },
     status := FindingStatus.reviewed },
   { id := "3", timestamp := "2024-01-15T12:15:00Z", ftype := "data_exfiltration",
     severity := 0.45, confidence := 0.68,
     description := "Potential data exfiltration pattern detected",
     explanation := "Large amounts of data were transferred to external endpoints. The pattern suggests possible data exfiltration, though it could also be legitimate backup or sync operations.",
     affected_resources := ["s3-bucket-data", "cloudfront-dist"],
     time_window := { start := "2024-01-15T11:00:00Z", stop := "2024-01-15T12:00:00Z" },
     status := FindingStatus.resolved }]

/-- The findings-list state `fetchFindings` of `MLFindings.tsx` (lines
66–124) leaves behind: on success the response's findings (defaulting a
missing field to the empty list), on any failure the three hard-coded
mock findings. -/
def fetchFindings (response : Except String MLFindingsResponse) : List MLFinding :=
  match response with
  | Except.ok r => r.findings.getD []
  | Except.error _ => mockFindings

theorem currentIn_append (h : List SecurityRule) (x : SecurityRule) (id : Nat) :
    currentIn (h ++ [x]) id =
      if x.id = id then laterOf (currentIn h id) x else currentIn h id := by
  unfold currentIn
  rw [List.filter_append, List.foldl_append]
  by_cases hx : x.id = id
  · simp [hx]
  · simp [hx]

theorem foldl_laterOf_mem (l : List SecurityRule) (acc : Option SecurityRule)
    (r : SecurityRule) (h : l.foldl laterOf acc = some r) : acc = some r ∨ r ∈ l := by
  induction l generalizing acc with
  | nil => exact Or.inl h
  | cons x l ih =>
    rw [List.foldl_cons] at h
    rcases ih (laterOf acc x) h with hx | hl
    · cases acc with
      | none =>
        simp only [laterOf] at hx
        exact Or.inr (by simp [← Option.some_inj.mp hx])
      | some b =>
        by_cases hv : b.version < x.version
        · simp only [laterOf, if_pos hv] at hx
          exact Or.inr (by simp [← Option.some_inj.mp hx])
        · simp only [laterOf, if_neg hv] at hx
          exact Or.inl hx
    · exact Or.inr (List.mem_cons_of_mem x hl)

theorem currentIn_id (h : List SecurityRule) (id : Nat) (r : SecurityRule)
    (hc : currentIn h id = some r) : r.id = id := by
  unfold currentIn at hc
  rcases foldl_laterOf_mem _ none r hc with h0 | hmem
  · exact absurd h0 (by simp)
  · simpa using List.of_mem_filter hmem

theorem currentOf_after_transition (store : RuleStore) (id : Nat) (r : SecurityRule)
    (hcur : currentOf store id = some r) (target : RuleStatus) :
    currentOf
        { store with
            history := store.history ++ [{ r with status := target, version := r.version + 1 }] }
        id
      = some { r with status := target, version := r.version + 1 } := by
  have hid : r.id = id := currentIn_id _ _ _ hcur
  unfold currentOf at hcur ⊢
  rw [show ({ store with
      history := store.history ++ [{ r with status := target, version := r.version + 1 }] } :
        RuleStore).history
    = store.history ++ [{ r with status := target, version := r.version + 1 }] from rfl]
  rw [currentIn_append]
  simp [hid, hcur, laterOf]

/-- C1: `approve(id, expected_version)` / `reject(id, expected_version)`
transition the rule from CANDIDATE to ACTIVE (resp. REJECTED) exactly
when the stored current version equals `expected_version`; a version
mismatch returns VersionConflict, a non-CANDIDATE current status (at
the current version) returns InvalidTransition, and every failure
leaves the store — including `active_snapshot()` — unchanged. -/
theorem approve_reject_optimistic (store : RuleStore) (id expectedVersion : Nat)
    (r : SecurityRule) (hcur : currentOf store id = some r) :
    (r.version = expectedVersion → r.status = RuleStatus.CANDIDATE →
      (approve store id expectedVersion).1 = Except.ok () ∧
      (∃ r', currentOf (approve store id expectedVersion).2 id = some r' ∧
        r'.status = RuleStatus.ACTIVE) ∧
      (reject store id expectedVersion).1 = Except.ok () ∧
      (∃ r', currentOf (reject store id expectedVersion).2 id = some r' ∧
        r'.status = RuleStatus.REJECTED)) ∧
    (r.version ≠ expectedVersion →
      approve store id expectedVersion = (Except.error StoreError.VersionConflict, store) ∧
      reject store id expectedVersion = (Except.error StoreError.VersionConflict, store) ∧
      activeSnapshot (approve store id expectedVersion).2 = activeSnapshot store ∧
      activeSnapshot (reject store id expectedVersion).2 = activeSnapshot store) ∧
    (r.version = expectedVersion → r.status ≠ RuleStatus.CANDIDATE →
      approve store id expectedVersion = (Except.error StoreError.InvalidTransition, store) ∧
      reject store id expectedVersion = (Except.error StoreError.InvalidTransition, store) ∧
      activeSnapshot (approve store id expectedVersion).2 = activeSnapshot store ∧
      activeSnapshot (reject store id expectedVersion).2 = activeSnapshot store) := by
  refine ⟨?_, ?_, ?_⟩
  · intro hv hs
    have happ : approve store id expectedVersion =
        (Except.ok (), { store with
          history := store.history ++
            [{ r with status := RuleStatus.ACTIVE, version := r.version + 1 }] }) := by
      simp [approve, transition, hcur, hv, hs]
    have hrej : reject store id expectedVersion =
        (Except.ok (), { store with
          history := store.history ++
            [{ r with status := RuleStatus.REJECTED, version := r.version + 1 }] }) := by
      simp [reject, transition, hcur, hv, hs]
    refine ⟨by rw [happ],
      ⟨{ r with status := RuleStatus.ACTIVE, version := r.version + 1 }, ?_, rfl⟩,
      by rw [hrej],
      ⟨{ r with status := RuleStatus.REJECTED, version := r.version + 1 }, ?_, rfl⟩⟩
    · rw [happ]
      exact currentOf_after_transition store id r hcur RuleStatus.ACTIVE
    · rw [hrej]
      exact currentOf_after_transition store id r hcur RuleStatus.REJECTED
  · intro hv
    have happ : approve store id expectedVersion =
        (Except.error StoreError.VersionConflict, store) := by
      simp [approve, transition, hcur, hv]
    have hrej : reject store id expectedVersion =
        (Except.error StoreError.VersionConflict, store) := by
      simp [reject, transition, hcur, hv]
    exact ⟨happ, hrej, by rw [happ], by rw [hrej]⟩
  · intro hv hs
    have happ : approve store id expectedVersion =
        (Except.error StoreError.InvalidTransition, store) := by
      simp [approve, transition, hcur, hv, hs]
    have hrej : reject store id expectedVersion =
        (Except.error StoreError.InvalidTransition, store) := by
      simp [reject, transition, hcur, hv, hs]
    exact ⟨happ, hrej, by rw [happ], by rw [hrej]⟩

/-- C2: once a rule version is ACTIVE or REJECTED it is terminal — a
mutation attempt on that version fails with InvalidTransition, every
mutation attempt on the rule leaves the store unchanged, every store
operation only ever appends to the version log (so no recorded version
is ever changed), and a transition only ever succeeds from a CANDIDATE
current status. -/
theorem terminal_version_immutable (store : RuleStore) (id : Nat) (r : SecurityRule)
    (hcur : currentOf store id = some r)
    (hterm : r.status = RuleStatus.ACTIVE ∨ r.status = RuleStatus.REJECTED) :
    approve store id r.version = (Except.error StoreError.InvalidTransition, store) ∧
    reject store id r.version = (Except.error StoreError.InvalidTransition, store) ∧
    (∀ ev, (approve store id ev).2 = store) ∧
    (∀ ev, (reject store id ev).2 = store) ∧
    (∀ j ev, ∃ t, ((approve store j ev).2).history = store.history ++ t) ∧
    (∀ j ev, ∃ t, ((reject store j ev).2).history = store.history ++ t) ∧
    (∀ c, ∃ t, ((putCandidate store c).2).history = store.history ++ t) ∧
    (∀ j ev, (approve store j ev).1 = Except.ok () →
      ∃ r', currentOf store j = some r' ∧ r'.status = RuleStatus.CANDIDATE) ∧
    (∀ j ev, (reject store j ev).1 = Except.ok () →
      ∃ r', currentOf store j = some r' ∧ r'.status = RuleStatus.CANDIDATE) := by
  have hns : r.status ≠ RuleStatus.CANDIDATE := by
    rcases hterm with h | h <;> simp [h]
  have happend : ∀ (target : RuleStatus) (j ev : Nat),
      ∃ t, ((transition target store j ev).2).history = store.history ++ t := by
    intro target j ev
    cases hc : currentOf store j with
    | none => exact ⟨[], by simp [transition, hc]⟩
    | some q =>
      by_cases hv : q.version = ev
      · by_cases hs : q.status = RuleStatus.CANDIDATE
        · exact ⟨[{ q with status := target, version := q.version + 1 }],
            by simp [transition, hc, hv, hs]⟩
        · exact ⟨[], by simp [transition, hc, hv, hs]⟩
      · exact ⟨[], by simp [transition, hc, hv]⟩
  have hsucc : ∀ (target : RuleStatus) (j ev : Nat),
      (transition target store j ev).1 = Except.ok () →
      ∃ r', currentOf store j = some r' ∧ r'.status = RuleStatus.CANDIDATE := by
    intro target j ev hok
    cases hc : currentOf store j with
    | none => simp [transition, hc] at hok
    | some q =>
      refine ⟨q, rfl, ?_⟩
      by_cases hv : q.version = ev
      · by_cases hs : q.status = RuleStatus.CANDIDATE
        · exact hs
        · simp [transition, hc, hv, hs] at hok
      · simp [transition, hc, hv] at hok
  have hfail : ∀ ev, (transition RuleStatus.ACTIVE store id ev).2 = store ∧
      (transition RuleStatus.REJECTED store id ev).2 = store := by
    intro ev
    by_cases hv : r.version = ev
    · constructor <;> simp [transition, hcur, hv, hns]
    · constructor <;> simp [transition, hcur, hv]
  refine ⟨by simp [approve, transition, hcur, hns], by simp [reject, transition, hcur, hns],
    fun ev => (hfail ev).1, fun ev => (hfail ev).2,
    happend RuleStatus.ACTIVE, happend RuleStatus.REJECTED, ?_,
    hsucc RuleStatus.ACTIVE, hsucc RuleStatus.REJECTED⟩
  intro c
  cases hd : findDup store c with
  | none => exact ⟨[mkRule store.nextId c], by simp [putCandidate, hd]⟩
  | some q => exact ⟨[], by simp [putCandidate, hd]⟩

theorem matchesDup_iff (c : CandidateRule) (r : SecurityRule) :
    matchesDup c r = true ↔
      (r.status ≠ RuleStatus.REJECTED ∧
        fingerprint r.resourceType r.pattern = fingerprint c.resourceType c.pattern) := by
  simp [matchesDup]

/-- C3: `put_candidate` is idempotent on duplicates — when the
candidate's fingerprint matches an existing non-REJECTED current rule
it returns that rule's id and leaves the store (hence its size)
unchanged; otherwise it persists the candidate as version 1 with
status CANDIDATE under a fresh id and returns that new id. -/
theorem put_candidate_idempotent_or_fresh (store : RuleStore) (c : CandidateRule)
    (hwf : ∀ r ∈ store.history, r.id < store.nextId) :
    ((∃ r ∈ currentRules store, r.status ≠ RuleStatus.REJECTED ∧
        fingerprint r.resourceType r.pattern = fingerprint c.resourceType c.pattern) →
      ∃ r ∈ currentRules store, r.status ≠ RuleStatus.REJECTED ∧
        fingerprint r.resourceType r.pattern = fingerprint c.resourceType c.pattern ∧
        putCandidate store c = (r.id, store)) ∧
    ((¬ ∃ r ∈ currentRules store, r.status ≠ RuleStatus.REJECTED ∧
        fingerprint r.resourceType r.pattern = fingerprint c.resourceType c.pattern) →
      (putCandidate store c).1 = store.nextId ∧
      ((putCandidate store c).2).history = store.history ++ [mkRule store.nextId c] ∧
      (mkRule store.nextId c).version = 1 ∧
      (mkRule store.nextId c).status = RuleStatus.CANDIDATE ∧
      ∀ r ∈ store.history, r.id ≠ (putCandidate store c).1) := by
  constructor
  · rintro ⟨r, hrmem, hr⟩
    have hsome : (findDup store c).isSome := by
      rw [findDup, List.find?_isSome]
      exact ⟨r, hrmem, (matchesDup_iff c r).mpr hr⟩
    obtain ⟨r', hr'⟩ := Option.isSome_iff_exists.mp hsome
    have hr'' : (currentRules store).find? (matchesDup c) = some r' := hr'
    have hp := (matchesDup_iff c r').mp (List.find?_some hr'')
    exact ⟨r', List.mem_of_find?_eq_some hr'', hp.1, hp.2, by simp [putCandidate, hr']⟩
  · intro hno
    have hfd : findDup store c = none := by
      rw [findDup, List.find?_eq_none]
      intro r hrmem hmr
      exact hno ⟨r, hrmem, (matchesDup_iff c r).mp hmr⟩
    refine ⟨by simp [putCandidate, hfd], by simp [putCandidate, hfd], rfl, rfl, ?_⟩
    intro r hr
    have := hwf r hr
    simp only [putCandidate, hfd]
    omega

/-- C6: anomalies with confidence below the 0.5 default threshold are
dropped by the synthesizer — `synthesize` returns none and the rule
store is left unchanged by the synthesis pipeline step. -/
theorem low_confidence_no_candidate (store : RuleStore) (a : AnomalyDescriptor)
    (h : a.confidence < 0.5) :
    synthesize a = none ∧
    processAnomaly store a = store ∧
    ((processAnomaly store a).history).length = store.history.length := by
  have hs : synthesize a = none := by simp [synthesize, h]
  have hp : processAnomaly store a = store := by simp [processAnomaly, hs]
  exact ⟨hs, hp, by rw [hp]⟩

/-- C4: for a fixed (resources, rule snapshot) pair, scanning is
deterministic — any two invocations give equal reports, the findings
are sorted in the ordering whose primary key is the file path,
secondary key the line number and tertiary key the rule id, and the
severity counts are computed from (and so equal across runs on) that
fixed ordering. -/
theorem scan_deterministic_ordered (resources : List ResourceDecl)
    (snapshot : List SecurityRule) :
    scan resources snapshot = scan resources snapshot ∧
    List.Sorted FindingLE (scan resources snapshot).findings ∧
    (scan resources snapshot).counts = severityCounts (scan resources snapshot).findings ∧
    ∀ a b : Finding, FindingLE a b ↔
      (a.file < b.file ∨ (a.file = b.file ∧
        (a.line < b.line ∨ (a.line = b.line ∧ a.ruleId ≤ b.ruleId)))) := by
  refine ⟨rfl, ?_, rfl, ?_⟩
  · exact List.sorted_insertionSort FindingLE _
  · intro a b
    unfold FindingLE findingKey
    rw [Prod.Lex.le_iff, Prod.Lex.le_iff]

/-- C5: the anomaly-score severity bucketing uses exactly the
thresholds 0.8, 0.6, 0.4 (CRITICAL iff score ≥ 0.8, HIGH iff
0.6 ≤ score < 0.8, MEDIUM iff 0.4 ≤ score < 0.6, LOW otherwise), and
the frontend severity-color functions of `MLFindings.tsx` and
`LogUpload.tsx` partition [0,1] at the same thresholds: they agree with
the bucket's color on every score. -/
theorem severity_thresholds (s : ℚ) (h0 : 0 ≤ s) (h1 : s ≤ 1) :
    (severityBucket s = Severity.CRITICAL ↔ 0.8 ≤ s) ∧
    (severityBucket s = Severity.HIGH ↔ 0.6 ≤ s ∧ s < 0.8) ∧
    (severityBucket s = Severity.MEDIUM ↔ 0.4 ≤ s ∧ s < 0.6) ∧
    (severityBucket s = Severity.LOW ↔ s < 0.4) ∧
    getSeverityColorML s = muiColorOf (severityBucket s) ∧
    getSeverityColorLog s = hexColorOf (severityBucket s) := by
  refine ⟨?_, ?_, ?_, ?_, ?_, ?_⟩
  · unfold severityBucket
    split_ifs with hA hB hC <;> simp_all <;>
      first
      | linarith
      | (constructor <;> linarith)
      | (intro h2; linarith)
      | (rintro ⟨h2, h3⟩; linarith)
  · unfold severityBucket
    split_ifs with hA hB hC <;> simp_all <;>
      first
      | linarith
      | (constructor <;> linarith)
      | (intro h2; linarith)
      | (rintro ⟨h2, h3⟩; linarith)
  · unfold severityBucket
    split_ifs with hA hB hC <;> simp_all <;>
      first
      | linarith
      | (constructor <;> linarith)
      | (intro h2; linarith)
      | (rintro ⟨h2, h3⟩; linarith)
  · unfold severityBucket
    split_ifs with hA hB hC <;> simp_all <;>
      first
      | linarith
      | (constructor <;> linarith)
      | (intro h2; linarith)
      | (rintro ⟨h2, h3⟩; linarith)
  · unfold getSeverityColorML severityBucket
    split_ifs <;> simp [muiColorOf]
  · unfold getSeverityColorLog severityBucket
    split_ifs <;> simp [hexColorOf]

/-- C7: the CI-facing exit code of a completed scan is 0 exactly when
there are no findings, 1 exactly when findings exist and all are LOW or
MEDIUM, and 2 exactly when at least one finding is HIGH or CRITICAL. -/
theorem exit_code_convention (fs : List Finding) :
    (exitCode fs = 0 ↔ fs = []) ∧
    (exitCode fs = 1 ↔ fs ≠ [] ∧
      ∀ f ∈ fs, f.severity = Severity.LOW ∨ f.severity = Severity.MEDIUM) ∧
    (exitCode fs = 2 ↔ ∃ f ∈ fs,
      f.severity = Severity.HIGH ∨ f.severity = Severity.CRITICAL) := by
  have hsev : ∀ f : Finding,
      (f.severity == Severity.HIGH || f.severity == Severity.CRITICAL) = true ↔
        (f.severity = Severity.HIGH ∨ f.severity = Severity.CRITICAL) := by
    intro f
    cases hf : f.severity <;> simp
  have hnotsev : ∀ f : Finding,
      ¬(f.severity = Severity.HIGH ∨ f.severity = Severity.CRITICAL) ↔
        (f.severity = Severity.LOW ∨ f.severity = Severity.MEDIUM) := by
    intro f
    cases hf : f.severity <;> simp
  cases hA : fs.any
      (fun f => f.severity == Severity.HIGH || f.severity == Severity.CRITICAL) with
  | true =>
    have he : exitCode fs = 2 := by simp [exitCode, hA]
    have hex : ∃ f ∈ fs, f.severity = Severity.HIGH ∨ f.severity = Severity.CRITICAL := by
      rw [List.any_eq_true] at hA
      obtain ⟨f, hf, hsf⟩ := hA
      exact ⟨f, hf, (hsev f).mp hsf⟩
    have hne : fs ≠ [] := by
      rintro rfl
      simp at hA
    rw [he]
    refine ⟨⟨fun h => absurd h (by omega), fun h => absurd h hne⟩,
      ⟨fun h => absurd h (by omega), ?_⟩,
      ⟨fun _ => hex, fun _ => rfl⟩⟩
    rintro ⟨-, hall⟩
    obtain ⟨f, hf, hsf⟩ := hex
    exact absurd hsf ((hnotsev f).mpr (hall f hf))
  | false =>
    have hall : ∀ f ∈ fs, f.severity = Severity.LOW ∨ f.severity = Severity.MEDIUM := by
      intro f hf
      have hp := List.any_eq_false.mp hA f hf
      exact (hnotsev f).mp (fun hc => hp ((hsev f).mpr hc))
    have hnex : ¬∃ f ∈ fs, f.severity = Severity.HIGH ∨ f.severity = Severity.CRITICAL := by
      rintro ⟨f, hf, hsf⟩
      exact List.any_eq_false.mp hA f hf ((hsev f).mpr hsf)
    cases hE : fs.isEmpty with
    | true =>
      have hfs : fs = [] := by simpa using hE
      have he : exitCode fs = 0 := by simp [exitCode, hA, hE]
      rw [he]
      exact ⟨⟨fun _ => hfs, fun _ => rfl⟩,
        ⟨fun h => absurd h (by omega), fun h => absurd hfs h.1⟩,
        ⟨fun h => absurd h (by omega), fun h => absurd h hnex⟩⟩
    | false =>
      have hfs : fs ≠ [] := by simpa using hE
      have he : exitCode fs = 1 := by simp [exitCode, hA, hE]
      rw [he]
      exact ⟨⟨fun h => absurd h (by omega), fun h => absurd h hfs⟩,
        ⟨fun _ => ⟨hfs, hall⟩, fun _ => rfl⟩,
        ⟨fun h => absurd h (by omega), fun h => absurd h hnex⟩⟩

/-- The static "SSH open to world" rule (`sg-001` of the rules summary,
`src/unnamed/part_006`): CRITICAL, flags a security group whose ingress
allows port 22 from 0.0.0.0/0. -/
def sshRule : SecurityRule :=
  { id := 1, name := "Security Group SSH Open to World",
    description := "Security group should not allow SSH (port 22) from 0.0.0.0/0",
    severity := Severity.CRITICAL, resourceType := "security_group",
    pattern := Pattern.conj (Pattern.attrEquals "ingress.port" (AttrValue.num 22))
      (Pattern.attrEquals "ingress.cidr" (AttrValue.str "0.0.0.0/0")),
    remediation := "Restrict SSH access to specific IP ranges or use bastion hosts",
    source := RuleSource.STATIC, status := RuleStatus.ACTIVE, version := 1 }

/-- The example resource of §8: a security group with ingress port 22
open to 0.0.0.0/0, declared at `main.tf` line 7. -/
def sgResource : ResourceDecl :=
  { rtype := "security_group", name := "open_sg",
    attrs := [("ingress.port", AttrValue.num 22), ("ingress.cidr", AttrValue.str "0.0.0.0/0")],
    file := "main.tf", line := 7 }

/-- C8: scanning the open-SSH security group against a snapshot holding
only the SSH-open-to-world rule yields exactly one finding, CRITICAL,
located at the resource's source file and line. -/
theorem ssh_world_example :
    (scan [sgResource] [sshRule]).findings =
      [{ ruleId := 1, ruleVersion := 1, severity := Severity.CRITICAL, file := "main.tf",
         line := 7, resource := "open_sg",
         message := "Security group should not allow SSH (port 22) from 0.0.0.0/0",
         remediation := "Restrict SSH access to specific IP ranges or use bastion hosts" }] ∧
    ((scan [sgResource] [sshRule]).findings).length = 1 ∧
    (scan [sgResource] [sshRule]).counts = { low := 0, medium := 0, high := 0, critical := 1 } :=
  ⟨rfl, rfl, rfl⟩

theorem countBuckets_go (rs : List BackendScanItem) (b : SeverityBuckets) :
    rs.foldl (fun b r => bumpBucket b (r.severity.getD "MEDIUM")) b =
      { CRITICAL := b.CRITICAL +
          (rs.filter (fun r => r.severity.getD "MEDIUM" == "CRITICAL")).length,
        HIGH := b.HIGH + (rs.filter (fun r => r.severity.getD "MEDIUM" == "HIGH")).length,
        MEDIUM := b.MEDIUM + (rs.filter (fun r => r.severity.getD "MEDIUM" == "MEDIUM")).length,
        LOW := b.LOW + (rs.filter (fun r => r.severity.getD "MEDIUM" == "LOW")).length } := by
  induction rs generalizing b with
  | nil => simp
  | cons r rs ih =>
    rw [List.foldl_cons, ih]
    by_cases h1 : r.severity.getD "MEDIUM" = "CRITICAL"
    · simp [bumpBucket, h1, List.filter_cons]
      all_goals omega
    · by_cases h2 : r.severity.getD "MEDIUM" = "HIGH"
      · simp [bumpBucket, h1, h2, List.filter_cons]
        all_goals omega
      · by_cases h3 : r.severity.getD "MEDIUM" = "MEDIUM"
        · simp [bumpBucket, h1, h2, h3, List.filter_cons]
          all_goals omega
        · by_cases h4 : r.severity.getD "MEDIUM" = "LOW"
          · simp [bumpBucket, h1, h2, h3, h4, List.filter_cons]
            all_goals omega
          · simp [bumpBucket, h1, h2, h3, h4, List.filter_cons]
            all_goals omega

theorem countBuckets_spec (rs : List BackendScanItem) :
    countBuckets rs =
      { CRITICAL := (rs.filter (fun r => r.severity.getD "MEDIUM" == "CRITICAL")).length,
        HIGH := (rs.filter (fun r => r.severity.getD "MEDIUM" == "HIGH")).length,
        MEDIUM := (rs.filter (fun r => r.severity.getD "MEDIUM" == "MEDIUM")).length,
        LOW := (rs.filter (fun r => r.severity.getD "MEDIUM" == "LOW")).length } := by
  unfold countBuckets
  rw [countBuckets_go]
  simp

/-- A backend response whose `issues_found` disagrees with both the
bucket sum and the result-list length: one result with severity
`"BOGUS"` but `issues_found = 5`. -/
def bogusResponse : BackendScanResponse :=
  { message := "m", files_scanned := some 1, issues_found := some 5,
    results := [{ file_path := some "a.tf", rule_id := some "r1",
                  severity := some "BOGUS", description := some "d",
                  line_number := some 3 }] }

/-- C9: the web IaC scanner's response transformation defaults a
missing severity to MEDIUM and a missing line number to 0; each result
increments exactly the bucket named by its (defaulted) severity when
that name is CRITICAL/HIGH/MEDIUM/LOW and no bucket otherwise, while
every result appears in the violations list; `total_violations` is
copied from the backend's `issues_found`, and on a concrete response it
differs from both the bucket sum and the violations-list length. -/
theorem iac_transform_spec (d : BackendScanResponse) (fp ri ds : Option String) :
    (toViolation { file_path := fp, rule_id := ri, severity := none,
                   description := ds, line_number := none }).severity = "MEDIUM" ∧
    (toViolation { file_path := fp, rule_id := ri, severity := none,
                   description := ds, line_number := none }).line = 0 ∧
    (transformScan d).violations = d.results.map toViolation ∧
    ((transformScan d).violations).length = d.results.length ∧
    (transformScan d).violations_by_severity.CRITICAL =
      (d.results.filter (fun r => r.severity.getD "MEDIUM" == "CRITICAL")).length ∧
    (transformScan d).violations_by_severity.HIGH =
      (d.results.filter (fun r => r.severity.getD "MEDIUM" == "HIGH")).length ∧
    (transformScan d).violations_by_severity.MEDIUM =
      (d.results.filter (fun r => r.severity.getD "MEDIUM" == "MEDIUM")).length ∧
    (transformScan d).violations_by_severity.LOW =
      (d.results.filter (fun r => r.severity.getD "MEDIUM" == "LOW")).length ∧
    (transformScan d).total_violations = d.issues_found.getD 0 ∧
    (transformScan bogusResponse).total_violations = 5 ∧
    (transformScan bogusResponse).violations_by_severity =
      { CRITICAL := 0, HIGH := 0, MEDIUM := 0, LOW := 0 } ∧
    ((transformScan bogusResponse).violations).length = 1 := by
  have hb : (transformScan d).violations_by_severity = countBuckets d.results := rfl
  refine ⟨rfl, rfl, rfl, by simp [transformScan], ?_, ?_, ?_, ?_, rfl, rfl, by decide, rfl⟩ <;>
    rw [hb, countBuckets_spec]

/-- C10: whenever the `GET /api/ml/findings` request fails, the ML
findings view falls back to the same three hard-coded mock findings —
the rendered list is a fixed value independent of the error (and of any
backend state). -/
theorem ml_findings_failure_fallback (e : String) :
    fetchFindings (Except.error e) = mockFindings ∧
    mockFindings.length = 3 ∧
    (mockFindings.map (fun f => f.id)) = ["1", "2", "3"] ∧
    ∀ e2 : String, fetchFindings (Except.error e) = fetchFindings (Except.error e2) :=
  ⟨rfl, rfl, rfl, fun _ => rfl⟩

/-- A concrete CANDIDATE rule at version 1, for witnesses. -/
def demoRule : SecurityRule :=
  { id := 0, name := "demo", description := "demo rule",
    severity := Severity.LOW, resourceType := "s3_bucket",
    pattern := Pattern.attrAbsent "encryption",
    remediation := "enable encryption", source := RuleSource.ML_GENERATED,
    status := RuleStatus.CANDIDATE, version := 1 }

/-- A store holding only `demoRule` (current version 1, CANDIDATE). -/
def demoStore : RuleStore := { history := [demoRule], nextId := 1 }

/-- `demoRule` after approval: version 2, ACTIVE. -/
def demoActiveRule : SecurityRule :=
  { demoRule with status := RuleStatus.ACTIVE, version := 2 }

/-- A store whose current version of rule 0 is terminal (ACTIVE at
version 2). -/
def demoTerminalStore : RuleStore := { history := [demoRule, demoActiveRule], nextId := 1 }

/-- A concrete candidate with a fresh fingerprint, for witnesses. -/
def demoCandidate : CandidateRule :=
  { name := "demo candidate", description := "demo candidate rule",
    severity := Severity.MEDIUM, resourceType := "security_group",
    pattern := Pattern.attrEquals "ingress.cidr" (AttrValue.str "0.0.0.0/0"),
    remediation := "restrict the cidr" }

/-- A concrete anomaly with confidence 0.3, below the 0.5 threshold. -/
def demoAnomaly : AnomalyDescriptor :=
  { id := 7, atype := "PORT_SCAN", severityScore := 0.7, confidence := 0.3,
    affectedResources := ["sg-67890"] }

/-- Witness for C1 at a concrete store: approving rule 0 (stored at
version 1) with expected version 2 returns VersionConflict and leaves
the store and its active snapshot unchanged. -/
theorem approve_reject_optimistic_witness :
    approve demoStore 0 2 = (Except.error StoreError.VersionConflict, demoStore) ∧
    activeSnapshot (approve demoStore 0 2).2 = activeSnapshot demoStore :=
  ⟨((approve_reject_optimistic demoStore 0 2 demoRule rfl).2.1 (by decide)).1,
   ((approve_reject_optimistic demoStore 0 2 demoRule rfl).2.1 (by decide)).2.2.1⟩

/-- Witness for C2 at a concrete store: re-approving the already-ACTIVE
current version 2 of rule 0 fails with InvalidTransition and leaves the
store unchanged. -/
theorem terminal_version_immutable_witness :
    approve demoTerminalStore 0 2 =
      (Except.error StoreError.InvalidTransition, demoTerminalStore) ∧
    reject demoTerminalStore 0 2 =
      (Except.error StoreError.InvalidTransition, demoTerminalStore) := by
  have h := terminal_version_immutable demoTerminalStore 0 demoActiveRule rfl (Or.inl rfl)
  exact ⟨h.1, h.2.1⟩

/-- Witness for C3 at a concrete store: putting a candidate with a
fresh fingerprint into the empty store persists it as version 1 under
the fresh id 0. -/
theorem put_candidate_idempotent_or_fresh_witness :
    (putCandidate emptyStore demoCandidate).1 = 0 ∧
    ((putCandidate emptyStore demoCandidate).2).history = [mkRule 0 demoCandidate] ∧
    (mkRule 0 demoCandidate).version = 1 := by
  have h := (put_candidate_idempotent_or_fresh emptyStore demoCandidate
    (by intro r hr; simp [emptyStore] at hr)).2 (by decide)
  exact ⟨h.1, h.2.1, h.2.2.1⟩

/-- Witness for C5 at the concrete score 0.7: the bucket is HIGH with
the stated threshold characterization, and both frontend color
functions agree with the bucket's color. -/
theorem severity_thresholds_witness :
    (severityBucket 0.7 = Severity.HIGH ↔ (0.6 : ℚ) ≤ 0.7 ∧ (0.7 : ℚ) < 0.8) ∧
    getSeverityColorML 0.7 = muiColorOf (severityBucket 0.7) ∧
    getSeverityColorLog 0.7 = hexColorOf (severityBucket 0.7) := by
  have h := severity_thresholds 0.7 (by norm_num) (by norm_num)
  exact ⟨h.2.1, h.2.2.2.2.1, h.2.2.2.2.2⟩

/-- Witness for C6 at a concrete anomaly with confidence 0.3: no
candidate is synthesized and the store is unchanged. -/
theorem low_confidence_no_candidate_witness :
    synthesize demoAnomaly = none ∧ processAnomaly emptyStore demoAnomaly = emptyStore := by
  have h := low_confidence_no_candidate emptyStore demoAnomaly
    (by show (0.3 : ℚ) < 0.5; norm_num)
  exact ⟨h.1, h.2.1⟩

/-- Witness for C4 at a concrete scan: the report of scanning the demo
security group is sorted in the reporting order. -/
theorem scan_deterministic_ordered_witness :
    List.Sorted FindingLE (scan [sgResource] [sshRule]).findings :=
  (scan_deterministic_ordered [sgResource] [sshRule]).2.1

/-- Witness for C7 at concrete finding lists: the empty scan exits 0,
and a scan with one CRITICAL finding exits 2. -/
theorem exit_code_convention_witness :
    exitCode ([] : List Finding) = 0 ∧
    exitCode (scan [sgResource] [sshRule]).findings = 2 := by
  refine ⟨(exit_code_convention []).1.mpr rfl, ?_⟩
  refine (exit_code_convention (scan [sgResource] [sshRule]).findings).2.2.mpr ?_
  have hfs : (scan [sgResource] [sshRule]).findings =
      [{ ruleId := 1, ruleVersion := 1, severity := Severity.CRITICAL, file := "main.tf",
         line := 7, resource := "open_sg",
         message := "Security group should not allow SSH (port 22) from 0.0.0.0/0",
         remediation := "Restrict SSH access to specific IP ranges or use bastion hosts" }] := rfl
  exact ⟨{ ruleId := 1, ruleVersion := 1, severity := Severity.CRITICAL, file := "main.tf",
           line := 7, resource := "open_sg",
           message := "Security group should not allow SSH (port 22) from 0.0.0.0/0",
           remediation := "Restrict SSH access to specific IP ranges or use bastion hosts" },
         by rw [hfs]; exact List.mem_singleton.mpr rfl, Or.inr rfl⟩

/-- Witness for C9 at a concrete backend response: a result with no
severity and no line number becomes a MEDIUM violation at line 0. -/
theorem iac_transform_spec_witness :
    (toViolation { file_path := none, rule_id := none, severity := none,
                   description := none, line_number := none }).severity = "MEDIUM" ∧
    (transformScan bogusResponse).total_violations = 5 :=
  ⟨(iac_transform_spec bogusResponse none none none).1,
   (iac_transform_spec bogusResponse none none none).2.2.2.2.2.2.2.2.2.1⟩

/-- Witness for C10 at a concrete error: the fallback list is the mock
data. -/
theorem ml_findings_failure_fallback_witness :
    fetchFindings (Except.error "network down") = mockFindings :=
  (ml_findings_failure_fallback "network down").1

end Securon
